import Mathlib

/-!
Verification of the resilient Gemini completion client in
`src/services/geminiService.ts`: error classification (`parseErrorPayload`,
`isRetryableError`), the retry/fallback engine (`generateWithResilience`) and
the three operations built on it (`getAIExplanation`,
`generateQuestionsFromPDF`).  The TypeScript is shallowly embedded: thrown JS
values become `Thrown`, the nondeterministic remote call becomes an explicit
`Backend` oracle indexed by model and within-model attempt, `Math.random`
jitter becomes a `Jitter` oracle, and the engine returns the trace of calls
and backoff waits it performed together with its outcome.
-/

namespace GeminiService

/-- A value thrown by JS code: either an `Error` instance carrying its
`message` string, or some non-`Error` value (JS permits `throw "boom"`); the
service inspects thrown values only through `instanceof Error` and `.message`,
so one constructor for all non-`Error` values is a faithful quotient. -/
inductive Thrown where
  | err (message : String)
  | nonError
deriving DecidableEq, Repr

/-- JSON values as produced by `JSON.parse`.  Numbers are modelled as
integers: the embedded parser rejects fraction and exponent forms, which the
error payloads this code classifies (HTTP/RPC status codes) never use. -/
inductive Json where
  | null
  | bool (b : Bool)
  | num (n : Int)
  | str (s : String)
  | arr (elems : List Json)
  | obj (fields : List (String × Json))

/-- The whitespace `JSON.parse` skips between tokens. -/
def isJsonWs (c : Char) : Bool :=
  c = ' ' || c = '\t' || c = '\n' || c = '\r'

def skipWs : List Char → List Char
  | [] => []
  | c :: cs => if isJsonWs c then skipWs cs else c :: cs

def hexVal (c : Char) : Option Nat :=
  if '0' ≤ c ∧ c ≤ '9' then some (c.toNat - '0'.toNat)
  else if 'a' ≤ c ∧ c ≤ 'f' then some (c.toNat - 'a'.toNat + 10)
  else if 'A' ≤ c ∧ c ≤ 'F' then some (c.toNat - 'A'.toNat + 10)
  else none

/-- Parse the body of a JSON string after its opening quote, returning the
decoded characters and the input remaining after the closing quote.  Raw
control characters are rejected and the JSON escapes are decoded; `\u` does
not pair surrogates (irrelevant to the payloads classified here). -/
def parseStringBody : Nat → List Char → Option (List Char × List Char)
  | 0, _ => none
  | _, [] => none
  | fuel + 1, c :: cs =>
    if c = '"' then some ([], cs)
    else if c = '\\' then
      match cs with
      | [] => none
      | e :: cs2 =>
        let esc : Option (Char × List Char) :=
          if e = '"' then some ('"', cs2)
          else if e = '\\' then some ('\\', cs2)
          else if e = '/' then some ('/', cs2)
          else if e = 'b' then some (Char.ofNat 8, cs2)
          else if e = 'f' then some (Char.ofNat 12, cs2)
          else if e = 'n' then some ('\n', cs2)
          else if e = 'r' then some ('\r', cs2)
          else if e = 't' then some ('\t', cs2)
          else if e = 'u' then
            match cs2 with
            | h1 :: h2 :: h3 :: h4 :: rest =>
              match hexVal h1, hexVal h2, hexVal h3, hexVal h4 with
              | some a, some b, some c2, some d =>
                some (Char.ofNat (((a * 16 + b) * 16 + c2) * 16 + d), rest)
              | _, _, _, _ => none
            | _ => none
          else none
        match esc with
        | some (ch, rest) =>
          match parseStringBody fuel rest with
          | some (tail, rem) => some (ch :: tail, rem)
          | none => none
        | none => none
    else if c.toNat < 32 then none
    else
      match parseStringBody fuel cs with
      | some (tail, rem) => some (c :: tail, rem)
      | none => none

def takeDigits : List Char → List Char × List Char
  | [] => ([], [])
  | c :: cs =>
    if c.isDigit then
      let r := takeDigits cs
      (c :: r.1, r.2)
    else ([], c :: cs)

def digitsToNat (ds : List Char) : Nat :=
  ds.foldl (fun acc c => acc * 10 + (c.toNat - '0'.toNat)) 0

def startsFracOrExp : List Char → Bool
  | c :: _ => c = '.' || c = 'e' || c = 'E'
  | [] => false

/-- Parse a JSON natural-number literal (no leading zeros); fraction and
exponent parts are rejected by this integer-only model. -/
def parseNatLit (cs : List Char) : Option (Nat × List Char) :=
  match takeDigits cs with
  | ([], _) => none
  | (d :: ds, rest) =>
    if d = '0' && !ds.isEmpty then none
    else if startsFracOrExp rest then none
    else some (digitsToNat (d :: ds), rest)

def parseNumber (cs : List Char) : Option (Int × List Char) :=
  match cs with
  | '-' :: rest => (parseNatLit rest).map (fun r => (-(r.1 : Int), r.2))
  | _ => (parseNatLit cs).map (fun r => ((r.1 : Int), r.2))

mutual

/-- Fuel-indexed recursive-descent JSON value parser. -/
def parseValue : Nat → List Char → Option (Json × List Char)
  | 0, _ => none
  | fuel + 1, cs =>
    match skipWs cs with
    | [] => none
    | c :: rest =>
      if c = 'n' then
        match rest with
        | 'u' :: 'l' :: 'l' :: r => some (.null, r)
        | _ => none
      else if c = 't' then
        match rest with
        | 'r' :: 'u' :: 'e' :: r => some (.bool true, r)
        | _ => none
      else if c = 'f' then
        match rest with
        | 'a' :: 'l' :: 's' :: 'e' :: r => some (.bool false, r)
        | _ => none
      else if c = '"' then
        match parseStringBody rest.length rest with
        | some (chars, r) => some (.str (String.mk chars), r)
        | none => none
      else if c = '[' then
        match skipWs rest with
        | ']' :: r => some (.arr [], r)
        | _ =>
          match parseElems fuel rest with
          | some (xs, r) => some (.arr xs, r)
          | none => none
      else if c = '{' then
        match skipWs rest with
        | '}' :: r => some (.obj [], r)
        | _ =>
          match parseFields fuel rest with
          | some (fs, r) => some (.obj fs, r)
          | none => none
      else parseNumber (c :: rest) |>.map (fun r => (.num r.1, r.2))

/-- Comma-separated array elements up to the closing bracket. -/
def parseElems : Nat → List Char → Option (List Json × List Char)
  | 0, _ => none
  | fuel + 1, cs =>
    match parseValue fuel cs with
    | none => none
    | some (v, rest) =>
      match skipWs rest with
      | ',' :: r =>
        match parseElems fuel r with
        | some (vs, r2) => some (v :: vs, r2)
        | none => none
      | ']' :: r => some ([v], r)
      | _ => none

/-- Comma-separated object members up to the closing brace. -/
def parseFields : Nat → List Char → Option (List (String × Json) × List Char)
  | 0, _ => none
  | fuel + 1, cs =>
    match skipWs cs with
    | '"' :: rest =>
      match parseStringBody rest.length rest with
      | none => none
      | some (key, r1) =>
        match skipWs r1 with
        | ':' :: r2 =>
          match parseValue fuel r2 with
          | none => none
          | some (v, r3) =>
            match skipWs r3 with
            | ',' :: r4 =>
              match parseFields fuel r4 with
              | some (fs, r5) => some ((String.mk key, v) :: fs, r5)
              | none => none
            | '}' :: r4 => some ([(String.mk key, v)], r4)
            | _ => none
        | _ => none
    | _ => none

end

/-- `JSON.parse`: the whole input must be one JSON value (integer-valued
numbers only in this model), surrounding whitespace allowed. -/
def Json.parse (s : String) : Option Json :=
  let cs := s.toList
  match parseValue (2 * cs.length + 4) cs with
  | some (v, rest) => if (skipWs rest).isEmpty then some v else none
  | none => none

/-- Property access `v.key` on a parsed JSON value: meaningful only on
objects (later duplicate keys overwrite earlier ones, as in `JSON.parse`). -/
def Json.getField : Json → String → Option Json
  | .obj fields, key => fields.foldl (fun acc f => if f.1 = key then some f.2 else acc) none
  | _, _ => none

/-- JS truthiness of a JSON value. -/
def Json.truthy : Json → Bool
  | .null => false
  | .bool b => b
  | .num n => n != 0
  | .str s => s != ""
  | .arr _ => true
  | .obj _ => true

/-- `typeof v === "object"` for a JSON value (`null` and arrays included). -/
def Json.typeofObject : Json → Bool
  | .null => true
  | .arr _ => true
  | .obj _ => true
  | _ => false

/-- `typeof x === "number" ? x : undefined` on an optional field. -/
def asNum : Option Json → Option Int
  | some (.num n) => some n
  | _ => none

/-- `typeof x === "string" ? x : undefined` on an optional field. -/
def asStr : Option Json → Option String
  | some (.str s) => some s
  | _ => none

/-- The normalized error view `{ code?, status?, message? }`. -/
structure ErrorPayload where
  code : Option Int
  status : Option String
  message : Option String
deriving DecidableEq, Repr

/-- `parseErrorPayload` (geminiService.ts lines 26-47): non-`Error` values and
empty messages yield the empty payload; a message parsing to JSON with a
truthy object-typed `error` member yields its typed `code`/`status`/`message`
fields; anything else yields just the raw message. -/
def parseErrorPayload (error : Thrown) : ErrorPayload :=
  match error with
  | .nonError => ⟨none, none, none⟩
  | .err msg =>
    if msg = "" then ⟨none, none, none⟩
    else
      match Json.parse msg with
      | some parsed =>
        match parsed.getField "error" with
        | some errVal =>
          if errVal.truthy && errVal.typeofObject then
            ⟨asNum (errVal.getField "code"), asStr (errVal.getField "status"),
             asStr (errVal.getField "message")⟩
          else ⟨none, none, some msg⟩
        | none => ⟨none, none, some msg⟩
      | none => ⟨none, none, some msg⟩

/-- `RETRYABLE_STATUS_CODES` (line 6). -/
def RETRYABLE_STATUS_CODES : List Int := [429, 500, 502, 503, 504]

/-- `RETRYABLE_STATUS_TEXT` (lines 7-12). -/
def RETRYABLE_STATUS_TEXT : List String :=
  ["UNAVAILABLE", "RESOURCE_EXHAUSTED", "INTERNAL", "DEADLINE_EXCEEDED"]

/-- ASCII `\w` of the regex on line 62. -/
def isWordChar (c : Char) : Bool :=
  ('a' ≤ c && c ≤ 'z') || ('A' ≤ c && c ≤ 'Z') || ('0' ≤ c && c ≤ '9') || c = '_'

/-- ASCII uppercasing, modelling `String.prototype.toUpperCase` on the ASCII
status tokens the code compares against. -/
def upperAscii (s : String) : String := String.mk (s.toList.map Char.toUpper)

/-- The alternatives of the retry pattern on line 62, lowercased. -/
def RETRY_PATTERN_ALTS : List (List Char) :=
  ["503", "429", "unavailable", "high demand", "try again later",
   "resource exhausted"].map String.toList

/-- Strip a lowercase alternative from the head of the text,
case-insensitively, returning the remaining text. -/
def stripAltCI : List Char → List Char → Option (List Char)
  | [], rest => some rest
  | _, [] => none
  | a :: as, c :: cs => if a = c.toLower then stripAltCI as cs else none

def noWordCharAhead : List Char → Bool
  | [] => true
  | c :: _ => !isWordChar c

/-- One alternative matches at the current position with `\b` on both sides
(`prev` is the character just before the position, if any; all alternatives
start and end with word characters, so `\b` means a non-word neighbour or the
text edge). -/
def altMatchesAt (prev : Option Char) (alt : List Char) (cs : List Char) : Bool :=
  match stripAltCI alt cs with
  | some rest =>
    (match prev with
     | none => true
     | some p => !isWordChar p) && noWordCharAhead rest
  | none => false

/-- `.test` of `/\b(alt1|alt2|…)\b/i`: some alternative matches at some
position of the text. -/
def testWordAlts (alts : List (List Char)) : Option Char → List Char → Bool
  | prev, [] => alts.any (fun a => altMatchesAt prev a [])
  | prev, c :: cs =>
    alts.any (fun a => altMatchesAt prev a (c :: cs)) || testWordAlts alts (some c) cs

def regexTestAlts (alts : List (List Char)) (s : String) : Bool :=
  testWordAlts alts none s.toList

/-- `isRetryableError` (geminiService.ts lines 49-63). -/
def isRetryableError (error : Thrown) : Bool :=
  let p := parseErrorPayload error
  let codeOk :=
    match p.code with
    | some c => RETRYABLE_STATUS_CODES.contains c
    | none => false
  let statusOk :=
    match p.status with
    | some s =>
      let normalized := upperAscii s
      normalized != "" && RETRYABLE_STATUS_TEXT.contains normalized
    | none => false
  if codeOk then true
  else if statusOk then true
  else
    let text := p.message.getD (match error with | .err m => m | .nonError => "")
    regexTestAlts RETRY_PATTERN_ALTS text

/-- `PRIMARY_MODEL` (line 4). -/
def PRIMARY_MODEL : String := "gemini-3-flash-preview"

/-- `FALLBACK_MODELS` (line 5). -/
def FALLBACK_MODELS : List String := ["gemini-2.5-flash", "gemini-2.0-flash"]

/-- Structured-output schema descriptors (`Type.…` trees of `@google/genai`)
as the service builds them; inert request data. -/
inductive Schema where
  | strField (description : Option String)
  | intField (description : Option String)
  | arrField (items : Schema) (description : Option String)
  | objField (properties : List (String × Schema)) (required : List String)

/-- The optional `config` member of a `generateContent` request. -/
structure ReqConfig where
  responseMimeType : Option String
  responseSchema : Option Schema

/-- The environment's `ai.models.generateContent`: the outcome of calling a
given model with given contents/config on its zero-based within-model attempt
(the attempt index is the oracle's nondeterminism index; each pair is called
at most once per engine invocation).  Success carries the response's optional
`text` field. -/
abbrev Backend := String → Nat → String → Option ReqConfig → Except Thrown (Option String)

/-- The draws of `Math.floor(Math.random() * 200)` on line 95, indexed by the
(model, attempt) pair they follow; JS guarantees each draw is below 200. -/
abbrev Jitter := String → Nat → Nat

/-- Observable events of one `generateWithResilience` run: a `generateContent`
call against a model at a within-model attempt index, or an awaited backoff
delay (tagged with the attempt index it followed). -/
inductive Ev where
  | call (model : String) (attempt : Nat)
  | wait (attempt : Nat) (ms : Nat)
deriving DecidableEq, Repr

/-- Line 95: `600 * 2 ** attempt + Math.floor(Math.random() * 200)`. -/
def backoffDelay (attempt : Nat) (jitterDraw : Nat) : Nat :=
  600 * 2 ^ attempt + jitterDraw

/-- The inner `for (let attempt = 0; attempt < 3; attempt++)` loop of
`generateWithResilience` (lines 77-97) on one model: `a` is the current
attempt index and `rest` the attempt indices still available before
`isLastAttemptForModel`; returns the emitted events and either the returned
text or the model's final (`lastError`) failure. -/
def runModelAux (backend : Backend) (jitter : Jitter) (contents : String)
    (config : Option ReqConfig) (model : String) :
    Nat → List Nat → List Ev × Except Thrown String
  | a, [] =>
    match backend model a contents config with
    | .ok text => ([.call model a], .ok (text.getD ""))
    | .error e => ([.call model a], .error e)
  | a, a2 :: rest2 =>
    match backend model a contents config with
    | .ok text => ([.call model a], .ok (text.getD ""))
    | .error e =>
      if isRetryableError e then
        let next := runModelAux backend jitter contents config model a2 rest2
        (.call model a :: .wait a (backoffDelay a (jitter model a)) :: next.1, next.2)
      else ([.call model a], .error e)

/-- Up to 3 attempts against one model, starting at attempt 0. -/
def runModel (backend : Backend) (jitter : Jitter) (contents : String)
    (config : Option ReqConfig) (model : String) : List Ev × Except Thrown String :=
  runModelAux backend jitter contents config model 0 [1, 2]

/-- Line 100: `lastError instanceof Error ? lastError : new Error("Gemini API
request failed.")`. -/
def finalThrow : Option Thrown → Thrown
  | some (.err m) => .err m
  | _ => .err "Gemini API request failed."

/-- The outer `for (const model of models)` loop (lines 76-98) plus the final
throw (line 100), threading `lastError`. -/
def runModelsAux (backend : Backend) (jitter : Jitter) (contents : String)
    (config : Option ReqConfig) :
    List String → Option Thrown → List Ev × Except Thrown String
  | [], lastError => ([], .error (finalThrow lastError))
  | model :: ms, _lastError =>
    let r := runModel backend jitter contents config model
    match r.2 with
    | .ok text => (r.1, .ok text)
    | .error e =>
      let next := runModelsAux backend jitter contents config ms (some e)
      (r.1 ++ next.1, next.2)

/-- `generateWithResilience` (lines 65-101): the event trace and the overall
outcome.  (`getAIClient`'s credential check precedes the loop and is outside
the claims considered here.) -/
def generateWithResilience (backend : Backend) (jitter : Jitter)
    (contents : String) (config : Option ReqConfig) : List Ev × Except Thrown String :=
  runModelsAux backend jitter contents config (PRIMARY_MODEL :: FALLBACK_MODELS) none

/-- `ExplanationParams` (lines 117-123). -/
structure ExplanationParams where
  question : String
  selectedAnswer : String
  correctAnswer : String
  isCorrect : Bool
  topic : String

/-- The explanation prompt template literal (lines 128-142), interpolation
made explicit (`selectedAnswer || "Skipped"`, the `isCorrect` ternary). -/
def buildExplanationPrompt (p : ExplanationParams) : String :=
  "\n    You are a subject matter expert. Provide a 1-2 sentence technical explanation for this quiz question.\n    \n    Topic: " ++
  p.topic ++ "\n    Question: " ++ p.question ++ "\n    Student selected: " ++
  (if p.selectedAnswer = "" then "Skipped" else p.selectedAnswer) ++
  "\n    Correct answer: " ++ p.correctAnswer ++ "\n    Result: " ++
  (if p.isCorrect then "Correct" else "Incorrect") ++
  "\n    \n    Rules:\n    - DO NOT say \"Good job\", \"Spot on\", \"Correct\", or any praise.\n    - DO NOT repeat the question or the answer text unnecessarily.\n    - Provide ONLY the scientific/technical explanation of why the correct answer is right and why the other might be wrong.\n    - Max 2 sentences.\n  "

/-- `getAIExplanation` (lines 125-151): fail-soft explanation text. -/
def getAIExplanation (backend : Backend) (jitter : Jitter)
    (params : ExplanationParams) : String :=
  match (generateWithResilience backend jitter (buildExplanationPrompt params) none).2 with
  | .ok text =>
    if text = "" then "I'm sorry, I couldn't generate an explanation right now." else text
  | .error _ =>
    "The AI is currently unavailable. The correct answer is: " ++ params.correctAnswer

/-- JS `text.substring(0, n)`: the first `n` characters (all of the text when
it is shorter). -/
def jsSubstringTo (s : String) (n : Nat) : String := String.mk (s.toList.take n)

/-- The fixed part of the question prompt before the embedded source text
(lines 155-159). -/
def questionPromptPre (count : Nat) : String :=
  "\n    Based on the following text extracted from a PDF, generate " ++ toString count ++
  " multiple-choice questions.\n    Each question must have exactly 4 options and 1 correct answer.\n    \n    Text:\n    "

/-- The fixed part of the question prompt after the embedded source text; the
`//` remark sits inside the template literal, so it is prompt text. -/
def questionPromptSuf : String := " // Limit text size for prompt\n  "

/-- The question-generation prompt (lines 155-160), embedding
`pdfText.substring(0, 15000)`. -/
def buildQuestionPrompt (count : Nat) (pdfText : String) : String :=
  questionPromptPre count ++ jsSubstringTo pdfText 15000 ++ questionPromptSuf

/-- The `responseSchema` literal of `generateQuestionsFromPDF` (lines 166-184). -/
def questionSchema : Schema :=
  .arrField
    (.objField
      [("topic", .strField (some "The specific topic or sub-heading of the question")),
       ("q", .strField (some "The question text")),
       ("a", .arrField (.strField none) (some "Array of 4 possible answers")),
       ("correct", .intField (some "The 0-based index of the correct answer in the 'a' array"))]
      ["topic", "q", "a", "correct"])
    none

/-- The `config` of `generateQuestionsFromPDF`'s request (lines 164-185). -/
def questionConfig : ReqConfig :=
  ⟨some "application/json", some questionSchema⟩

/-- The message of the non-transient failure thrown by
`generateQuestionsFromPDF`'s catch block (line 194): the payload's message
when truthy, a fixed default otherwise. -/
def nonRetryableFailureMsg (e : Thrown) : String :=
  match (parseErrorPayload e).message with
  | some m => if m = "" then "Failed to generate questions from PDF." else m
  | none => "Failed to generate questions from PDF."

/-- The catch block of `generateQuestionsFromPDF` (lines 188-195). -/
def questionsCatch (e : Thrown) : Except Thrown Json :=
  if isRetryableError e then
    .error (.err "Gemini is temporarily busy. Please retry in a few seconds.")
  else
    .error (.err (nonRetryableFailureMsg e))

/-- `generateQuestionsFromPDF` (lines 153-196).  `parseErrMsg` models the
engine-specific `SyntaxError.message` raised when `JSON.parse` rejects its
argument (that error is then classified by the same catch block).  The
returned JSON is not shape-checked by the code: the TypeScript `Question[]`
return type is erased at runtime. -/
def generateQuestionsFromPDF (parseErrMsg : String → String) (backend : Backend)
    (jitter : Jitter) (pdfText : String) (count : Nat) : Except Thrown Json :=
  match (generateWithResilience backend jitter (buildQuestionPrompt count pdfText)
      (some questionConfig)).2 with
  | .ok text =>
    let toParse := if text = "" then "[]" else text
    match Json.parse toParse with
    | some j => .ok j
    | none => questionsCatch (.err (parseErrMsg toParse))
  | .error e => questionsCatch e

/-! ### Spec-side definitions

The following definitions are written from the claims' words (not from the
source) so that the code's classification can be compared against them. -/

/-- The needle matches at the head of the haystack. -/
def matchesHead : List Char → List Char → Bool
  | [], _ => true
  | _, [] => false
  | n :: ns, h :: hs => (n = h) && matchesHead ns hs

def sublistSearch (needle : List Char) : List Char → Bool
  | [] => needle.isEmpty
  | h :: hs => matchesHead needle (h :: hs) || sublistSearch needle hs

/-- Case-insensitive (ASCII) substring containment: the claims' reading of
"the raw message text case-insensitively contains …". -/
def containsCI (needle hay : String) : Bool :=
  sublistSearch (needle.toList.map Char.toLower) (hay.toList.map Char.toLower)

/-- The claims' fallback test: the raw message text case-insensitively
contains one of the six marker strings. -/
def rawTextRetryable (msg : String) : Bool :=
  RETRY_PATTERN_ALTS.any (fun alt => containsCI (String.mk alt) msg)

/-- Claim C1's classification, written from the claim's words: the fallback
substring test applies only when the message does not parse as JSON with a
nested error object. -/
def claimedRetryableC1 (error : Thrown) : Bool :=
  match error with
  | .nonError => false
  | .err msg =>
    match Json.parse msg with
    | some parsed =>
      match parsed.getField "error" with
      | some v =>
        if v.truthy && v.typeofObject then
          (match asNum (v.getField "code") with
           | some c => RETRYABLE_STATUS_CODES.contains c
           | none => false) ||
          (match asStr (v.getField "status") with
           | some s => RETRYABLE_STATUS_TEXT.contains (upperAscii s)
           | none => false)
        else rawTextRetryable msg
      | none => rawTextRetryable msg
    | none => rawTextRetryable msg

/-- The truthy object-typed `error` member of the message's JSON parse, when
the message parses and has one. -/
def errObjOf (msg : String) : Option Json :=
  match Json.parse msg with
  | some parsed =>
    match parsed.getField "error" with
    | some v => if v.truthy && v.typeofObject then some v else none
    | none => none
  | none => none

/-- The text the regex fallback of `isRetryableError` is applied to: the
nested error object's string `message` when the payload parsed with one, the
raw message otherwise. -/
def fallbackText : Thrown → String
  | .nonError => ""
  | .err msg =>
    match errObjOf msg with
    | some v =>
      match asStr (v.getField "message") with
      | some m => m
      | none => msg
    | none => msg

/-- Claim C1 as amended: the code's classification restated — code or status
of a parsed nested error object in the retryable sets, or else the
word-boundary pattern over the six markers applied to the fallback text
(which is consulted whether or not the payload parsed). -/
def amendedRetryableC1 (error : Thrown) : Bool :=
  (match error with
   | .err msg =>
     match errObjOf msg with
     | some v =>
       (match asNum (v.getField "code") with
        | some c => RETRYABLE_STATUS_CODES.contains c
        | none => false) ||
       (match asStr (v.getField "status") with
        | some s => RETRYABLE_STATUS_TEXT.contains (upperAscii s)
        | none => false)
     | none => false
   | .nonError => false)
  || regexTestAlts RETRY_PATTERN_ALTS (fallbackText error)

/-- One of the claims' Question shape: an object with string `topic` and `q`,
an array-of-strings `a`, an integer `correct`. -/
def isStringJson : Json → Bool
  | .str _ => true
  | _ => false

def isQuestionJson (j : Json) : Bool :=
  (asStr (j.getField "topic")).isSome &&
  (asStr (j.getField "q")).isSome &&
  (match j.getField "a" with
   | some (.arr xs) => xs.all isStringJson
   | _ => false) &&
  (asNum (j.getField "correct")).isSome

/-- The claims' Question shape for the whole response value. -/
def isQuestionArray : Json → Bool
  | .arr xs => xs.all isQuestionJson
  | _ => false

/-! ### Trace projections and concrete oracles for witnesses -/

/-- The (model, attempt) pairs of the calls in a trace, in order. -/
def callsOf (evs : List Ev) : List (String × Nat) :=
  evs.filterMap (fun ev =>
    match ev with
    | .call m a => some (m, a)
    | .wait _ _ => none)

/-- How many calls a trace makes against one model. -/
def countCalls (model : String) (evs : List Ev) : Nat :=
  (callsOf evs).countP (fun c => c.1 == model)

def jitterZero : Jitter := fun _ _ => 0

def jitterSeven : Jitter := fun _ _ => 7

/-- A backend on which every call fails with a retryable `Error`. -/
def backend503 : Backend := fun _ _ _ _ => .error (.err "503")

/-- A backend on which the primary model fails fatally and every other model
succeeds. -/
def backendAuthSplit : Backend := fun model _ _ _ =>
  if model = PRIMARY_MODEL then .error (.err "API key not valid") else .ok (some "ok")

/-- A backend on which every call throws a non-`Error` value. -/
def backendNonError : Backend := fun _ _ _ _ => .error .nonError

/-- A backend whose completion always succeeds with the text `"42"`. -/
def backend42 : Backend := fun _ _ _ _ => .ok (some "42")

/-- A backend whose completion always succeeds with the text `"not json"`. -/
def backendNotJson : Backend := fun _ _ _ _ => .ok (some "not json")

/-- A backend whose completion succeeds with a missing `text` field. -/
def backendNoText : Backend := fun _ _ _ _ => .ok none

/-- A backend on which every call fails with a fatal (non-retryable) error. -/
def backendFatal : Backend := fun _ _ _ _ => .error (.err "schema validation failed")

/-- A backend that fails retryably on the primary model's first attempt and
succeeds afterwards. -/
def backendOnce503 : Backend := fun model a _ _ =>
  if model = PRIMARY_MODEL && a == 0 then .error (.err "503") else .ok (some "done")

/-- A representative engine `SyntaxError.message` for a `JSON.parse` failure. -/
def parseMsgFixed : String → String := fun _ => "Unexpected token o in JSON at position 1"

/-! ### Engine trace lemmas -/

theorem runModelAux_head (backend : Backend) (jitter : Jitter) (contents : String)
    (config : Option ReqConfig) (model : String) (a : Nat) (rest : List Nat) :
    ∃ tail, (runModelAux backend jitter contents config model a rest).1 =
      .call model a :: tail := by
  cases rest with
  | nil =>
    cases hb : backend model a contents config with
    | ok t => exact ⟨[], by simp [runModelAux, hb]⟩
    | error e => exact ⟨[], by simp [runModelAux, hb]⟩
  | cons a2 rest2 =>
    cases hb : backend model a contents config with
    | ok t => exact ⟨[], by simp [runModelAux, hb]⟩
    | error e =>
      cases hr : isRetryableError e with
      | true =>
        exact ⟨.wait a (backoffDelay a (jitter model a)) ::
          (runModelAux backend jitter contents config model a2 rest2).1,
          by simp [runModelAux, hb, hr]⟩
      | false => exact ⟨[], by simp [runModelAux, hb, hr]⟩

theorem runModel_head (backend : Backend) (jitter : Jitter) (contents : String)
    (config : Option ReqConfig) (model : String) :
    ∃ tail, (runModel backend jitter contents config model).1 =
      .call model 0 :: tail :=
  runModelAux_head backend jitter contents config model 0 [1, 2]

theorem callsOf_runModelAux (backend : Backend) (jitter : Jitter) (contents : String)
    (config : Option ReqConfig) (model : String) :
    ∀ (rest : List Nat) (a : Nat),
      (∀ p ∈ callsOf (runModelAux backend jitter contents config model a rest).1,
          p.1 = model) ∧
      (callsOf (runModelAux backend jitter contents config model a rest).1).length ≤
        rest.length + 1 := by
  intro rest
  induction rest with
  | nil =>
    intro a
    cases hb : backend model a contents config <;> simp [runModelAux, hb, callsOf]
  | cons a2 rest2 ih =>
    intro a
    cases hb : backend model a contents config with
    | ok t => simp [runModelAux, hb, callsOf]
    | error e =>
      cases hr : isRetryableError e with
      | false => simp [runModelAux, hb, hr, callsOf]
      | true =>
        have h2 := ih a2
        simp only [runModelAux, hb, hr, callsOf, List.filterMap_cons] at h2 ⊢
        simp only [if_true]
        constructor
        · intro p hp
          rcases List.mem_cons.mp hp with h | h
          · simp [h]
          · exact h2.1 p h
        · simpa using Nat.succ_le_succ h2.2

theorem callsOf_runModel_model (backend : Backend) (jitter : Jitter) (contents : String)
    (config : Option ReqConfig) (model : String) :
    ∀ p ∈ callsOf (runModel backend jitter contents config model).1, p.1 = model :=
  (callsOf_runModelAux backend jitter contents config model [1, 2] 0).1

theorem countCalls_runModel_le (backend : Backend) (jitter : Jitter) (contents : String)
    (config : Option ReqConfig) (model m : String) :
    countCalls m (runModel backend jitter contents config model).1 ≤ 3 := by
  have hlen := (callsOf_runModelAux backend jitter contents config model [1, 2] 0).2
  calc countCalls m (runModel backend jitter contents config model).1
      ≤ (callsOf (runModel backend jitter contents config model).1).length :=
        List.countP_le_length _
    _ ≤ 3 := hlen

theorem countCalls_runModel_ne (backend : Backend) (jitter : Jitter) (contents : String)
    (config : Option ReqConfig) (model m : String) (hne : m ≠ model) :
    countCalls m (runModel backend jitter contents config model).1 = 0 := by
  unfold countCalls
  rw [List.countP_eq_zero]
  intro p hp
  have := callsOf_runModel_model backend jitter contents config model p hp
  simp [this]
  exact fun h => hne h.symm

theorem callsOf_runModelsAux_models (backend : Backend) (jitter : Jitter)
    (contents : String) (config : Option ReqConfig) :
    ∀ (ms : List String) (lastError : Option Thrown),
      ∀ p ∈ callsOf (runModelsAux backend jitter contents config ms lastError).1,
        p.1 ∈ ms := by
  intro ms
  induction ms with
  | nil => intro lastError p hp; simp [runModelsAux, callsOf] at hp
  | cons model ms2 ih =>
    intro lastError p hp
    cases hr : (runModel backend jitter contents config model).2 with
    | ok t =>
      simp only [runModelsAux, hr] at hp
      exact List.mem_cons.mpr
        (Or.inl (callsOf_runModel_model backend jitter contents config model p hp))
    | error e =>
      simp only [runModelsAux, hr, callsOf, List.filterMap_append] at hp
      rcases List.mem_append.mp hp with h | h
      · exact List.mem_cons.mpr
          (Or.inl (callsOf_runModel_model backend jitter contents config model p h))
      · exact List.mem_cons.mpr (Or.inr (ih (some e) p h))

theorem countCalls_runModelsAux_zero (backend : Backend) (jitter : Jitter)
    (contents : String) (config : Option ReqConfig) (ms : List String)
    (lastError : Option Thrown) (m : String) (hm : m ∉ ms) :
    countCalls m (runModelsAux backend jitter contents config ms lastError).1 = 0 := by
  unfold countCalls
  rw [List.countP_eq_zero]
  intro p hp
  have := callsOf_runModelsAux_models backend jitter contents config ms lastError p hp
  simp only [beq_iff_eq, decide_eq_true_eq]
  intro h
  exact hm (h ▸ this)

theorem countCalls_runModelsAux_le (backend : Backend) (jitter : Jitter)
    (contents : String) (config : Option ReqConfig) :
    ∀ (ms : List String) (lastError : Option Thrown) (m : String), ms.Nodup →
      countCalls m (runModelsAux backend jitter contents config ms lastError).1 ≤ 3 := by
  intro ms
  induction ms with
  | nil => intro lastError m _; simp [runModelsAux, countCalls, callsOf]
  | cons model ms2 ih =>
    intro lastError m hnd
    have hnd2 := List.nodup_cons.mp hnd
    cases hr : (runModel backend jitter contents config model).2 with
    | ok t =>
      simp only [runModelsAux, hr]
      exact countCalls_runModel_le backend jitter contents config model m
    | error e =>
      simp only [runModelsAux, hr]
      unfold countCalls
      rw [callsOf, List.filterMap_append, List.countP_append]
      by_cases hmm : m = model
      · subst hmm
        have h0 := countCalls_runModelsAux_zero backend jitter contents config ms2
          (some e) m hnd2.1
        have h3 := countCalls_runModel_le backend jitter contents config m m
        unfold countCalls callsOf at h0 h3
        omega
      · have h0 := countCalls_runModel_ne backend jitter contents config model m hmm
        have h3 := ih (some e) m hnd2.2
        unfold countCalls callsOf at h0 h3
        omega

theorem runModelsAux_exhaustion_calls (backend : Backend) (jitter : Jitter)
    (contents : String) (config : Option ReqConfig) :
    ∀ (ms : List String) (lastError : Option Thrown) (t : Thrown),
      (runModelsAux backend jitter contents config ms lastError).2 = .error t →
      ∀ m ∈ ms, (m, 0) ∈ callsOf (runModelsAux backend jitter contents config ms lastError).1 := by
  intro ms
  induction ms with
  | nil => intro lastError t _ m hm; simp at hm
  | cons model ms2 ih =>
    intro lastError t ht m hm
    cases hr : (runModel backend jitter contents config model).2 with
    | ok text =>
      simp only [runModelsAux, hr] at ht
      exact absurd ht (by simp)
    | error e =>
      simp only [runModelsAux, hr] at ht ⊢
      simp only [callsOf, List.filterMap_append, List.mem_append]
      rcases List.mem_cons.mp hm with h | h
      · subst h
        obtain ⟨tail, htail⟩ := runModel_head backend jitter contents config m
        left
        rw [htail]
        simp
      · right
        have hmem := ih (some e) t ht m h
        simpa [callsOf] using hmem

theorem wait_runModelAux (backend : Backend) (jitter : Jitter) (contents : String)
    (config : Option ReqConfig) (model : String) :
    ∀ (rest : List Nat) (a i w : Nat),
      Ev.wait i w ∈ (runModelAux backend jitter contents config model a rest).1 →
      w = backoffDelay i (jitter model i) := by
  intro rest
  induction rest with
  | nil =>
    intro a i w hw
    cases hb : backend model a contents config <;> simp [runModelAux, hb] at hw
  | cons a2 rest2 ih =>
    intro a i w hw
    cases hb : backend model a contents config with
    | ok t => simp [runModelAux, hb] at hw
    | error e =>
      cases hr : isRetryableError e with
      | false => simp [runModelAux, hb, hr] at hw
      | true =>
        simp only [runModelAux, hb, hr, if_true, List.mem_cons] at hw
        rcases hw with h | h | h
        · exact absurd h (by simp)
        · obtain ⟨hi, hwv⟩ := Ev.wait.inj h
          subst hi; exact hwv
        · exact ih a2 i w h

theorem wait_runModelsAux (backend : Backend) (jitter : Jitter) (contents : String)
    (config : Option ReqConfig) :
    ∀ (ms : List String) (lastError : Option Thrown) (i w : Nat),
      Ev.wait i w ∈ (runModelsAux backend jitter contents config ms lastError).1 →
      ∃ model, w = backoffDelay i (jitter model i) := by
  intro ms
  induction ms with
  | nil => intro lastError i w hw; simp [runModelsAux] at hw
  | cons model ms2 ih =>
    intro lastError i w hw
    cases hr : (runModel backend jitter contents config model).2 with
    | ok t =>
      simp only [runModelsAux, hr] at hw
      exact ⟨model, wait_runModelAux backend jitter contents config model [1, 2] 0 i w hw⟩
    | error e =>
      simp only [runModelsAux, hr, List.mem_append] at hw
      rcases hw with h | h
      · exact ⟨model, wait_runModelAux backend jitter contents config model [1, 2] 0 i w h⟩
      · exact ih (some e) i w h

/-! ### Classification lemmas -/

theorem parseErrorPayload_err (msg : String) (hm : msg ≠ "") :
    parseErrorPayload (.err msg) =
      match errObjOf msg with
      | some v =>
        ⟨asNum (v.getField "code"), asStr (v.getField "status"),
         asStr (v.getField "message")⟩
      | none => ⟨none, none, some msg⟩ := by
  simp only [parseErrorPayload, errObjOf]
  rw [if_neg hm]
  cases hp : Json.parse msg with
  | none => rfl
  | some parsed =>
    dsimp only
    cases hg : parsed.getField "error" with
    | none => rfl
    | some v =>
      dsimp only
      cases hv : v.truthy && v.typeofObject with
      | false => simp
      | true => simp

theorem parseErrorPayload_of_noObj {msg : String} (hm : msg ≠ "")
    (hobj : errObjOf msg = none) :
    parseErrorPayload (.err msg) = ⟨none, none, some msg⟩ := by
  rw [parseErrorPayload_err msg hm, hobj]

theorem parseErrorPayload_of_obj {msg : String} {v : Json} (hm : msg ≠ "")
    (hobj : errObjOf msg = some v) :
    parseErrorPayload (.err msg) =
      ⟨asNum (v.getField "code"), asStr (v.getField "status"),
       asStr (v.getField "message")⟩ := by
  rw [parseErrorPayload_err msg hm, hobj]

theorem statusCheck_eq (s : String) :
    (!decide (s = "") && decide (s ∈ RETRYABLE_STATUS_TEXT)) =
      decide (s ∈ RETRYABLE_STATUS_TEXT) := by
  by_cases h : s = ""
  · subst h; decide
  · simp [h]

theorem ite_chain_or (a b x : Bool) :
    (if a then true else if b then true else x) = (a || (b || x)) := by
  cases a <;> cases b <;> simp

theorem testWordAlts_mono {a : List Char} {alts : List (List Char)} (ha : a ∈ alts) :
    ∀ (cs : List Char) (prev : Option Char),
      testWordAlts [a] prev cs = true → testWordAlts alts prev cs = true := by
  intro cs
  induction cs with
  | nil =>
    intro prev h
    simp only [testWordAlts, List.any_cons, List.any_nil, Bool.or_false] at h
    simp only [testWordAlts, List.any_eq_true]
    exact ⟨a, ha, h⟩
  | cons c cs ih =>
    intro prev h
    simp only [testWordAlts, List.any_cons, List.any_nil, Bool.or_false,
      Bool.or_eq_true] at h
    simp only [testWordAlts, Bool.or_eq_true, List.any_eq_true]
    rcases h with h | h
    · exact Or.inl ⟨a, ha, h⟩
    · exact Or.inr (ih (some c) h)

/-- C1: for every error value, `isRetryableError` returns true iff the
message parses as JSON with a nested error object whose numeric `code` is one
of 429, 500, 502, 503, 504, or whose string `status` compared
case-insensitively is one of UNAVAILABLE, RESOURCE_EXHAUSTED, INTERNAL,
DEADLINE_EXCEEDED, or the message does not so parse and the raw message text
case-insensitively contains one of the six marker strings — refuted: on a
message that parses with code 401 and nested message "service unavailable",
the code still runs its substring fallback on the nested message and
classifies the error retryable, while the claim classifies it fatal. -/
theorem c1_counterexample :
    isRetryableError
        (.err "\x7b\"error\":\x7b\"code\":401,\"message\":\"service unavailable\"\x7d\x7d") = true ∧
      claimedRetryableC1
        (.err "\x7b\"error\":\x7b\"code\":401,\"message\":\"service unavailable\"\x7d\x7d") = false := by
  constructor <;> decide

/-- C1 (amended): for every error value, `isRetryableError` returns true iff
the message parses as JSON with a nested error object whose numeric `code` or
uppercased string `status` is in the retryable sets, or else the fallback
text — the nested error object's string `message` when the payload parsed
with one, the raw message otherwise — matches the case-insensitive
word-boundary pattern over "503", "429", "unavailable", "high demand", "try
again later", "resource exhausted"; every other error is fatal. -/
theorem c1_amended_retryable_classification (e : Thrown) :
    isRetryableError e = amendedRetryableC1 e := by
  cases e with
  | nonError => decide
  | err msg =>
    by_cases hm : msg = ""
    · subst hm; decide
    · cases hobj : errObjOf msg with
      | none =>
        have hp := parseErrorPayload_of_noObj hm hobj
        simp [isRetryableError, amendedRetryableC1, fallbackText, hp, hobj]
      | some v =>
        have hp := parseErrorPayload_of_obj hm hobj
        simp only [isRetryableError, amendedRetryableC1, fallbackText, hp, hobj]
        cases hc : asNum (v.getField "code") <;>
          cases hs : asStr (v.getField "status") <;>
            cases hmsg : asStr (v.getField "message") <;>
              simp [ite_chain_or, statusCheck_eq, Bool.or_assoc]

/-- C2: for every error whose message has no parseable JSON error payload and
contains the substring "unavailable" case-insensitively, `isRetryableError`
returns true — refuted: "xunavailable" contains the substring but fails the
regex's word boundary, and the code classifies it fatal. -/
theorem c2_counterexample :
    Json.parse "xunavailable" = none ∧
      containsCI "unavailable" "xunavailable" = true ∧
      isRetryableError (.err "xunavailable") = false := by
  refine ⟨rfl, by decide, by decide⟩

/-- C2 (amended): for every error whose message has no parseable JSON error
payload and matches `/\bunavailable\b/i` (contains "unavailable" delimited by
word boundaries, case-insensitively), `isRetryableError` returns true. -/
theorem c2_amended_word_boundary_unavailable (msg : String)
    (hobj : errObjOf msg = none)
    (hmatch : regexTestAlts [String.toList "unavailable"] msg = true) :
    isRetryableError (.err msg) = true := by
  by_cases hm : msg = ""
  · subst hm; exact absurd hmatch (by decide)
  · have hp := parseErrorPayload_of_noObj hm hobj
    have hsix : testWordAlts RETRY_PATTERN_ALTS none msg.toList = true :=
      testWordAlts_mono (a := String.toList "unavailable") (by decide)
        msg.toList none hmatch
    simp [isRetryableError, hp, regexTestAlts]
    exact hsix

/-- Witness for the amended C2 at the concrete message "service unavailable". -/
theorem c2_amended_witness :
    isRetryableError (.err "service unavailable") = true :=
  c2_amended_word_boundary_unavailable "service unavailable" rfl (by decide)

theorem callsOf_append (xs ys : List Ev) :
    callsOf (xs ++ ys) = callsOf xs ++ callsOf ys := by
  simp [callsOf]

theorem runModelsAux_cons (backend : Backend) (jitter : Jitter) (contents : String)
    (config : Option ReqConfig) (model : String) (ms : List String)
    (lastError : Option Thrown) :
    runModelsAux backend jitter contents config (model :: ms) lastError =
      match (runModel backend jitter contents config model).2 with
      | .ok text => ((runModel backend jitter contents config model).1, .ok text)
      | .error e =>
        ((runModel backend jitter contents config model).1 ++
          (runModelsAux backend jitter contents config ms (some e)).1,
         (runModelsAux backend jitter contents config ms (some e)).2) := by
  rw [runModelsAux]

theorem callsOf_runModelsAux_head (backend : Backend) (jitter : Jitter)
    (contents : String) (config : Option ReqConfig) (model : String)
    (ms : List String) (lastError : Option Thrown) :
    ∃ tail, callsOf (runModelsAux backend jitter contents config
      (model :: ms) lastError).1 = (model, 0) :: tail := by
  obtain ⟨tl, htl⟩ := runModel_head backend jitter contents config model
  cases hr : (runModel backend jitter contents config model).2 with
  | ok t =>
    refine ⟨callsOf tl, ?_⟩
    simp only [runModelsAux, hr]
    rw [htl]
    simp [callsOf]
  | error e =>
    refine ⟨callsOf tl ++
      callsOf (runModelsAux backend jitter contents config ms (some e)).1, ?_⟩
    simp only [runModelsAux, hr]
    rw [callsOf_append, htl]
    simp [callsOf]

/-- C3: given a primary model failing all 3 attempts with retryable errors,
the engine's next attempt after primary exhaustion targets the first fallback
model; it never gives up while fallback models remain untried (on overall
failure every model in the list was called), and at most 3 calls are made
against any single model. -/
theorem c3_fallback_progression (backend : Backend) (jitter : Jitter)
    (contents : String) (config : Option ReqConfig)
    (h : ∀ a, a < 3 → ∃ e, backend PRIMARY_MODEL a contents config = .error e ∧
      isRetryableError e = true) :
    (callsOf (generateWithResilience backend jitter contents config).1).take 4 =
      [(PRIMARY_MODEL, 0), (PRIMARY_MODEL, 1), (PRIMARY_MODEL, 2),
       ("gemini-2.5-flash", 0)] ∧
    (∀ t, (generateWithResilience backend jitter contents config).2 = .error t →
      ∀ m ∈ PRIMARY_MODEL :: FALLBACK_MODELS,
        (m, 0) ∈ callsOf (generateWithResilience backend jitter contents config).1) ∧
    (∀ m, countCalls m (generateWithResilience backend jitter contents config).1 ≤ 3) := by
  obtain ⟨e0, h0, hr0⟩ := h 0 (by omega)
  obtain ⟨e1, h1, hr1⟩ := h 1 (by omega)
  obtain ⟨e2, h2, _⟩ := h 2 (by omega)
  have hrm : runModel backend jitter contents config PRIMARY_MODEL =
      ([.call PRIMARY_MODEL 0, .wait 0 (backoffDelay 0 (jitter PRIMARY_MODEL 0)),
        .call PRIMARY_MODEL 1, .wait 1 (backoffDelay 1 (jitter PRIMARY_MODEL 1)),
        .call PRIMARY_MODEL 2], .error e2) := by
    simp [runModel, runModelAux, h0, hr0, h1, hr1, h2]
  have hr2 := congrArg Prod.snd hrm
  have hfst := congrArg Prod.fst hrm
  refine ⟨?_, ?_, ?_⟩
  · obtain ⟨tail, htail⟩ := callsOf_runModelsAux_head backend jitter contents config
      "gemini-2.5-flash" ["gemini-2.0-flash"] (some e2)
    rw [generateWithResilience, FALLBACK_MODELS, runModelsAux_cons, hr2]
    dsimp only
    rw [callsOf_append, hfst, htail]
    simp [callsOf]
  · intro t ht m hm
    exact runModelsAux_exhaustion_calls backend jitter contents config
      (PRIMARY_MODEL :: FALLBACK_MODELS) none t ht m hm
  · intro m
    exact countCalls_runModelsAux_le backend jitter contents config
      (PRIMARY_MODEL :: FALLBACK_MODELS) none m (by decide)

/-- Witness for C3 on a backend failing every call with the retryable error
message "503". -/
theorem c3_witness :
    (callsOf (generateWithResilience backend503 jitterZero "quiz" none).1).take 4 =
      [(PRIMARY_MODEL, 0), (PRIMARY_MODEL, 1), (PRIMARY_MODEL, 2),
       ("gemini-2.5-flash", 0)] :=
  (c3_fallback_progression backend503 jitterZero "quiz" none
    (fun _ _ => ⟨.err "503", rfl, by decide⟩)).1

/-- C4: a fatal (non-retryable) error on a model's attempt stops that
model's remaining within-model retries immediately (whatever the model and
attempt index), while the outer loop still proceeds to the next model in the
fallback list, whose first attempt follows directly; concretely, a fatal
error on the primary model's first attempt leaves the primary called exactly
once with the first fallback called next. -/
theorem c4_fatal_skips_to_fallback (backend : Backend) (jitter : Jitter)
    (contents : String) (config : Option ReqConfig) :
    (∀ model a rest e, backend model a contents config = .error e →
      isRetryableError e = false →
      runModelAux backend jitter contents config model a rest =
        ([.call model a], .error e)) ∧
    (∀ model next ms2 lastError e2,
      (runModel backend jitter contents config model).2 = .error e2 →
      ∃ tail, callsOf (runModelsAux backend jitter contents config
          (model :: next :: ms2) lastError).1 =
        callsOf (runModel backend jitter contents config model).1 ++
          ((next, 0) :: tail)) ∧
    (∀ e, backend PRIMARY_MODEL 0 contents config = .error e →
      isRetryableError e = false →
      (callsOf (generateWithResilience backend jitter contents config).1).take 2 =
        [(PRIMARY_MODEL, 0), ("gemini-2.5-flash", 0)] ∧
      countCalls PRIMARY_MODEL
        (generateWithResilience backend jitter contents config).1 = 1) := by
  refine ⟨?_, ?_, ?_⟩
  · intro model a rest e hb hf
    cases rest <;> simp [runModelAux, hb, hf]
  · intro model next ms2 lastError e2 hr
    obtain ⟨tail, htail⟩ := callsOf_runModelsAux_head backend jitter contents config
      next ms2 (some e2)
    refine ⟨tail, ?_⟩
    rw [runModelsAux_cons, hr]
    dsimp only
    rw [callsOf_append, htail]
  · intro e hfail hfatal
    have hrm : runModel backend jitter contents config PRIMARY_MODEL =
        ([.call PRIMARY_MODEL 0], .error e) := by
      simp [runModel, runModelAux, hfail, hfatal]
    obtain ⟨tail, htail⟩ := callsOf_runModelsAux_head backend jitter contents config
      "gemini-2.5-flash" ["gemini-2.0-flash"] (some e)
    have hzero : countCalls PRIMARY_MODEL
        (runModelsAux backend jitter contents config
          ["gemini-2.5-flash", "gemini-2.0-flash"] (some e)).1 = 0 :=
      countCalls_runModelsAux_zero backend jitter contents config _ (some e)
        PRIMARY_MODEL (by decide)
    have hr2 := congrArg Prod.snd hrm
    have hfst := congrArg Prod.fst hrm
    constructor
    · rw [generateWithResilience, FALLBACK_MODELS, runModelsAux_cons, hr2]
      dsimp only
      rw [callsOf_append, hfst, htail]
      simp [callsOf]
    · rw [generateWithResilience, FALLBACK_MODELS, runModelsAux_cons, hr2]
      dsimp only
      unfold countCalls at hzero ⊢
      rw [callsOf_append, List.countP_append, hzero, hfst]
      simp [callsOf, PRIMARY_MODEL]

/-- Witness for C4 on a backend whose primary model fails fatally and whose
fallback models succeed. -/
theorem c4_witness :
    (callsOf (generateWithResilience backendAuthSplit jitterZero "quiz" none).1).take 2 =
      [(PRIMARY_MODEL, 0), ("gemini-2.5-flash", 0)] ∧
    countCalls PRIMARY_MODEL
      (generateWithResilience backendAuthSplit jitterZero "quiz" none).1 = 1 :=
  (c4_fatal_skips_to_fallback backendAuthSplit jitterZero "quiz" none).2.2
    (.err "API key not valid") rfl (by decide)

/-- C5: if every model/attempt fails, `complete` fails with an error equal to
(or wrapping) the last underlying error, the generic failure arising only
when no underlying error was captured — refuted: on a backend that always
throws a non-`Error` value, an underlying thrown value is captured on every
call, yet the engine discards it and throws the generic
"Gemini API request failed." error, which neither equals nor wraps it. -/
theorem c5_counterexample :
    (generateWithResilience backendNonError jitterZero "x" none).2 =
      .error (.err "Gemini API request failed.") ∧
    backendNonError PRIMARY_MODEL 0 "x" none = .error Thrown.nonError ∧
    Thrown.err "Gemini API request failed." ≠ Thrown.nonError := by
  refine ⟨rfl, rfl, by decide⟩

/-- C5 (amended): if every model/attempt fails, the engine fails with the
final error of the last model's run passed through the `instanceof Error`
filter: that error itself when it is an `Error`, the generic
"Gemini API request failed." error when the captured value is not an
`Error`; the generic error with no captured value cannot occur. -/
theorem c5_amended_last_error (backend : Backend) (jitter : Jitter)
    (contents : String) (config : Option ReqConfig) (t : Thrown)
    (h : (generateWithResilience backend jitter contents config).2 = .error t) :
    ∃ e, (runModel backend jitter contents config "gemini-2.0-flash").2 = .error e ∧
      t = finalThrow (some e) := by
  simp only [generateWithResilience, FALLBACK_MODELS, runModelsAux] at h
  cases hr1 : (runModel backend jitter contents config PRIMARY_MODEL).2 with
  | ok text => rw [hr1] at h; exact absurd h (by simp)
  | error e1 =>
    rw [hr1] at h
    dsimp only at h
    cases hr2 : (runModel backend jitter contents config "gemini-2.5-flash").2 with
    | ok text => rw [hr2] at h; exact absurd h (by simp)
    | error e2 =>
      rw [hr2] at h
      dsimp only at h
      cases hr3 : (runModel backend jitter contents config "gemini-2.0-flash").2 with
      | ok text => rw [hr3] at h; exact absurd h (by simp)
      | error e3 =>
        rw [hr3] at h
        dsimp only at h
        exact ⟨e3, rfl, by injection h with h2; exact h2.symm⟩

/-- Witness for the amended C5 on the all-non-`Error` backend. -/
theorem c5_amended_witness :
    ∃ e, (runModel backendNonError jitterZero "x" none "gemini-2.0-flash").2 =
        .error e ∧
      Thrown.err "Gemini API request failed." = finalThrow (some e) :=
  c5_amended_last_error backendNonError jitterZero "x" none
    (.err "Gemini API request failed.") rfl

/-- C8: every backoff wait before retrying the same model after a
retryable failure on zero-based attempt index `i` lasts
`600 * 2 ^ i + j` milliseconds for some jitter draw `j < 200`, hence lies in
the half-open interval `[600 * 2 ^ i, 600 * 2 ^ i + 200)`. -/
theorem c8_backoff_bounds (backend : Backend) (jitter : Jitter)
    (contents : String) (config : Option ReqConfig)
    (hj : ∀ m a, jitter m a < 200) (i w : Nat)
    (hw : Ev.wait i w ∈ (generateWithResilience backend jitter contents config).1) :
    ∃ j, j < 200 ∧ w = 600 * 2 ^ i + j ∧
      600 * 2 ^ i ≤ w ∧ w < 600 * 2 ^ i + 200 := by
  obtain ⟨model, hmodel⟩ := wait_runModelsAux backend jitter contents config
    (PRIMARY_MODEL :: FALLBACK_MODELS) none i w hw
  rw [backoffDelay] at hmodel
  have hjm := hj model i
  exact ⟨jitter model i, hjm, hmodel, by omega, by omega⟩

/-- Witness for C8: a backend that fails retryably once waits 607 ms with a
constant jitter of 7, inside `[600, 800)`. -/
theorem c8_witness :
    ∃ j, j < 200 ∧ 607 = 600 * 2 ^ 0 + j ∧
      600 * 2 ^ 0 ≤ 607 ∧ 607 < 600 * 2 ^ 0 + 200 :=
  c8_backoff_bounds backendOnce503 jitterSeven "quiz" none
    (fun _ _ => (by decide : (7 : Nat) < 200)) 0 607 (by decide)

/-- C6: with a successful completion, `generateQuestionsFromPDF` fails with a
Parse/Shape error whenever the returned text is not valid JSON or does not
match the Question shape — refuted: the code returns `JSON.parse`'s value
without any shape validation, so a backend answering the valid JSON text
"42" yields a successful result that is not a Question array. -/
theorem c6_counterexample :
    generateQuestionsFromPDF parseMsgFixed backend42 jitterZero "doc" 5 =
      .ok (Json.num 42) ∧
    isQuestionArray (Json.num 42) = false := by
  exact ⟨rfl, rfl⟩

/-- C6 (amended): with a successful completion whose text (empty text
replaced by "[]") is not valid JSON, and whose engine parse-error message is
not itself classified retryable, `generateQuestionsFromPDF` fails with an
`Error` carrying that parse message (or a fixed default when the payload
yields no truthy message) — the Parse branch, not the transient-busy branch;
the Question shape itself is never validated. -/
theorem c6_amended_parse_failure (parseErrMsg : String → String)
    (backend : Backend) (jitter : Jitter) (pdfText : String) (count : Nat)
    (text : String)
    (hok : (generateWithResilience backend jitter (buildQuestionPrompt count pdfText)
      (some questionConfig)).2 = .ok text)
    (hparse : Json.parse (if text = "" then "[]" else text) = none)
    (hfatal : isRetryableError
      (.err (parseErrMsg (if text = "" then "[]" else text))) = false) :
    generateQuestionsFromPDF parseErrMsg backend jitter pdfText count =
      .error (.err (nonRetryableFailureMsg
        (.err (parseErrMsg (if text = "" then "[]" else text))))) := by
  unfold generateQuestionsFromPDF
  rw [hok]
  dsimp only
  rw [hparse]
  dsimp only
  unfold questionsCatch
  rw [if_neg (by simp [hfatal])]

/-- Witness for the amended C6: a backend returning "not json" makes
`generateQuestionsFromPDF` fail with the parse-error message, distinct from
the transient-busy error. -/
theorem c6_amended_witness :
    generateQuestionsFromPDF parseMsgFixed backendNotJson jitterZero "doc" 5 =
      .error (.err "Unexpected token o in JSON at position 1") ∧
    Thrown.err "Unexpected token o in JSON at position 1" ≠
      Thrown.err "Gemini is temporarily busy. Please retry in a few seconds." := by
  constructor
  · exact c6_amended_parse_failure parseMsgFixed backendNotJson jitterZero "doc" 5
      "not json" rfl rfl (by decide)
  · decide

/-- C7: `getAIExplanation` never propagates a failure (it is a total
function into strings in this embedding): on any underlying engine error it
returns the degraded string ending in the supplied correct-answer text, and
on a successful completion with empty text it returns a fixed default. -/
theorem c7_explain_fail_soft (backend : Backend) (jitter : Jitter)
    (p : ExplanationParams) :
    (∀ e, (generateWithResilience backend jitter (buildExplanationPrompt p) none).2 =
        .error e →
      getAIExplanation backend jitter p =
        "The AI is currently unavailable. The correct answer is: " ++ p.correctAnswer ∧
      ∃ pre, getAIExplanation backend jitter p = pre ++ p.correctAnswer) ∧
    ((generateWithResilience backend jitter (buildExplanationPrompt p) none).2 = .ok "" →
      getAIExplanation backend jitter p =
        "I'm sorry, I couldn't generate an explanation right now.") := by
  constructor
  · intro e he
    unfold getAIExplanation
    rw [he]
    exact ⟨rfl, ⟨"The AI is currently unavailable. The correct answer is: ", rfl⟩⟩
  · intro h
    unfold getAIExplanation
    rw [h]
    rfl

/-- Witness for C7 on a backend whose every call throws a fatal error. -/
theorem c7_witness :
    getAIExplanation backendFatal jitterZero
      ⟨"What is 2+2?", "5", "4", false, "math"⟩ =
      "The AI is currently unavailable. The correct answer is: " ++ "4" :=
  ((c7_explain_fail_soft backendFatal jitterZero
      ⟨"What is 2+2?", "5", "4", false, "math"⟩).1
    (.err "schema validation failed") rfl).1

/-- C9: the question-generation prompt embeds exactly the first 15,000
characters of the source text between fixed prefix and suffix; text beyond
15,000 characters does not change the prompt (lossy truncation), and text of
at most 15,000 characters is embedded unchanged. -/
theorem c9_prompt_truncation (count : Nat) (t : String) :
    buildQuestionPrompt count t =
      questionPromptPre count ++ jsSubstringTo t 15000 ++ questionPromptSuf ∧
    buildQuestionPrompt count t = buildQuestionPrompt count (jsSubstringTo t 15000) ∧
    (t.length ≤ 15000 → jsSubstringTo t 15000 = t) := by
  refine ⟨rfl, ?_, ?_⟩
  · simp [buildQuestionPrompt, jsSubstringTo, List.take_take]
  · intro h
    simp only [jsSubstringTo, String.toList]
    rw [List.take_of_length_le h]

/-- Witness for C9 at a short concrete source text. -/
theorem c9_witness : jsSubstringTo "short text" 15000 = "short text" :=
  (c9_prompt_truncation 5 "short text").2.2 (by decide)

/-- C10: when the completion succeeds with empty (or missing, hence
empty) text, `generateQuestionsFromPDF` substitutes "[]" before parsing and
returns the empty question array rather than failing. -/
theorem c10_empty_success (parseErrMsg : String → String) (backend : Backend)
    (jitter : Jitter) (pdfText : String) (count : Nat)
    (h : (generateWithResilience backend jitter (buildQuestionPrompt count pdfText)
      (some questionConfig)).2 = .ok "") :
    generateQuestionsFromPDF parseErrMsg backend jitter pdfText count =
      .ok (Json.arr []) := by
  unfold generateQuestionsFromPDF
  rw [h]
  rfl

/-- Witness for C10 on a backend whose response has no `text` field. -/
theorem c10_witness :
    generateQuestionsFromPDF parseMsgFixed backendNoText jitterZero "doc" 3 =
      .ok (Json.arr []) :=
  c10_empty_success parseMsgFixed backendNoText jitterZero "doc" 3 rfl

end GeminiService
